import Mathlib

/-!
Shallow embedding of the `gen-ai-starter-template` LLM client layer:
`src/llm/config.py` (LLMConfig), `src/llm/base.py` (BaseLLMClient helpers),
`src/llm/client.py` (OpenAIClient.achat / astream) and
`src/schemas/chat.py` (Message, Role, LLMResponse).

Python floats are modelled as `Rat`, Python dicts as association lists in
field order (dataclasses preserve declaration order in `asdict`), Python
exceptions as an inductive `PyExc`, and fallible code as `Except PyExc`.
-/

/-- Python exceptions relevant to the client layer.  `RuntimeError` keeps its
cause because `achat` raises `RuntimeError(...) from e`. -/
inductive PyExc where
  | ValueError (msg : String)
  | APIError (msg : String)
  | RuntimeError (cause : PyExc)
  | IndexError
deriving DecidableEq, Repr

/-- Standardized roles from `src/schemas/chat.py` (`class Role(str, Enum)`). -/
inductive Role where
  | system
  | user
  | assistant
  | tool
deriving DecidableEq, Repr

/-- The `.value` of the `str`-enum `Role`. -/
def Role.value : Role → String
  | .system => "system"
  | .user => "user"
  | .assistant => "assistant"
  | .tool => "tool"

/-- A Python value that can appear in an API-parameter dict
(`LLMConfig.to_api_params` result entries). -/
inductive PValue where
  | rat (q : Rat)
  | int (n : Int)
  | bool (b : Bool)
  | str (s : String)
  | strList (l : List String)
  | ratMap (m : List (String × Rat))
  | strMap (m : List (String × String))
deriving DecidableEq, Repr

/-- `Message` from `src/schemas/chat.py`: role, content, optional name, and a
metadata dict. -/
structure Message where
  role : Role
  content : String
  name : Option String
  metadata : List (String × PValue)
deriving DecidableEq, Repr

/-- The token-usage dict built by `OpenAIClient.achat`
(keys "input", "output", "total"). -/
structure TokenUsage where
  input : Int
  output : Int
  total : Int
deriving DecidableEq, Repr

/-- `LLMResponse` from `src/schemas/chat.py` (the `raw_response` debug field is
omitted: no claim mentions it). -/
structure LLMResponse where
  content : String
  role : Role
  token_usage : TokenUsage
deriving DecidableEq, Repr

/-- The dataclass fields of `LLMConfig` (`src/llm/config.py`), in declaration
order.  The class-level `_STANDARD_FIELDS` / `_ADVANCED_FIELDS` constants are
kept as separate definitions below, mirroring the `startswith` underscore
filters in the Python code. -/
structure LLMConfig where
  temperature : Rat
  max_tokens : Int
  top_p : Rat
  stream : Bool
  stop : Option (List String)
  seed : Option Int
  frequency_penalty : Option Rat
  presence_penalty : Option Rat
  logit_bias : Option (List (String × Rat))
  user : Option String
  response_format : Option (List (String × String))
deriving DecidableEq, Repr

/-- The rational 7/10, written with an explicit numerator and denominator so
that the kernel can evaluate comparisons on it. -/
def ratSevenTenths : Rat := ⟨7, 10, by norm_num, by norm_num⟩

/-- The dataclass defaults of `LLMConfig` (temperature 0.7, max_tokens 1000,
top_p 1.0, stream False, everything else None). -/
def defaultLLMConfig : LLMConfig :=
  ⟨ratSevenTenths, 1000, 1, false, none, none, none, none, none, none, none⟩

/-- `_ADVANCED_FIELDS` from `src/llm/config.py`. -/
def ADVANCED_FIELDS : List String :=
  ["seed", "frequency_penalty", "presence_penalty",
   "logit_bias", "user", "response_format"]

/-- The non-underscore dataclass field names of `LLMConfig`, in declaration
order (the `valid_keys` of `LLMConfig.from_dict`). -/
def configFieldNames : List String :=
  ["temperature", "max_tokens", "top_p", "stream", "stop",
   "seed", "frequency_penalty", "presence_penalty",
   "logit_bias", "user", "response_format"]

/-- One penalty check of `LLMConfig.__post_init__`: when the value is present
it must lie in [-2, 2], otherwise a `ValueError` is raised; `k` is the rest of
the constructor body. -/
def checkPenalty (label : String) (o : Option Rat) (k : Except PyExc LLMConfig) :
    Except PyExc LLMConfig :=
  match o with
  | none => k
  | some q => if -2 ≤ q ∧ q ≤ 2 then k else .error (.ValueError label)

/-- Construction of an `LLMConfig`: `__init__` followed by `__post_init__`
validation (`src/llm/config.py`, lines 70-104).  The checks run in source
order: temperature, top_p, max_tokens, frequency_penalty, presence_penalty. -/
def LLMConfig.construct (c : LLMConfig) : Except PyExc LLMConfig :=
  if ¬(0 ≤ c.temperature ∧ c.temperature ≤ 2) then
    .error (.ValueError "temperature must be between 0.0 and 2.0")
  else if ¬(0 ≤ c.top_p ∧ c.top_p ≤ 1) then
    .error (.ValueError "top_p must be between 0.0 and 1.0")
  else if c.max_tokens < 1 then
    .error (.ValueError "max_tokens must be positive")
  else
    checkPenalty "frequency_penalty must be between -2.0 and 2.0"
      c.frequency_penalty
      (checkPenalty "presence_penalty must be between -2.0 and 2.0"
        c.presence_penalty (.ok c))

/-- C3 — Constructing an `LLMConfig` succeeds exactly when `temperature` lies
in [0,2], `top_p` lies in [0,1], `max_tokens` is at least 1, and each penalty,
when present, lies in [-2,2]; any out-of-bounds field makes construction raise
a `ValueError` synchronously. -/
theorem llmconfig_construct_ok_iff_in_bounds (c : LLMConfig) :
    (LLMConfig.construct c).isOk = true ↔
      (0 ≤ c.temperature ∧ c.temperature ≤ 2 ∧
       0 ≤ c.top_p ∧ c.top_p ≤ 1 ∧
       1 ≤ c.max_tokens ∧
       (∀ q, c.frequency_penalty = some q → -2 ≤ q ∧ q ≤ 2) ∧
       (∀ q, c.presence_penalty = some q → -2 ≤ q ∧ q ≤ 2)) := by
  unfold LLMConfig.construct
  rcases hf : c.frequency_penalty with _ | qf <;>
    rcases hp : c.presence_penalty with _ | qp <;>
      simp only [checkPenalty] <;> split_ifs <;>
        simp_all [Except.isOk, Except.toBool]

/-- Witness for C3 at the dataclass defaults: construction succeeds. -/
theorem llmconfig_construct_ok_iff_in_bounds_witness :
    (LLMConfig.construct defaultLLMConfig).isOk = true := by
  refine (llmconfig_construct_ok_iff_in_bounds defaultLLMConfig).mpr
    ⟨by decide, by decide, by decide, by decide, by decide,
     fun q h => by simp [defaultLLMConfig] at h,
     fun q h => by simp [defaultLLMConfig] at h⟩

/-- `LLMConfig.to_api_params` (`src/llm/config.py`, lines 129-157): iterate the
dataclass fields of `asdict(self)` in declaration order, skip underscore
fields, skip `None` values, and when `portable_only` also skip the advanced
fields; collect the rest as a dict. -/
def LLMConfig.to_api_params (c : LLMConfig) (portable_only : Bool) :
    List (String × PValue) :=
  let entries : List (String × Option PValue) :=
    [("temperature", some (.rat c.temperature)),
     ("max_tokens", some (.int c.max_tokens)),
     ("top_p", some (.rat c.top_p)),
     ("stream", some (.bool c.stream)),
     ("stop", c.stop.map .strList),
     ("seed", c.seed.map .int),
     ("frequency_penalty", c.frequency_penalty.map .rat),
     ("presence_penalty", c.presence_penalty.map .rat),
     ("logit_bias", c.logit_bias.map .ratMap),
     ("user", c.user.map .str),
     ("response_format", c.response_format.map .strMap)]
  entries.filterMap fun e =>
    e.2.bind fun v =>
      if portable_only && ADVANCED_FIELDS.contains e.1 then none
      else some (e.1, v)

/-- C5 — `to_api_params(portable_only=True)` never contains an advanced key
(seed, frequency_penalty, presence_penalty, logit_bias, user,
response_format), no matter which of those fields are set on the config. -/
theorem to_api_params_portable_excludes_advanced (c : LLMConfig) :
    (c.to_api_params true).filter
        (fun p => ADVANCED_FIELDS.contains p.1) = [] := by
  obtain ⟨t, mt, tp, st, stp, sd, fp, pp, lb, u, rf⟩ := c
  cases stp <;> cases sd <;> cases fp <;> cases pp <;>
    cases lb <;> cases u <;> cases rf <;> rfl

/-- Python dict item assignment `d[k] = v`: replace the value when the key is
present (keeping its position), otherwise append the new pair. -/
def dictSet : List (String × PValue) → String → PValue → List (String × PValue)
  | [], k, v => [(k, v)]
  | (k', v') :: rest, k, v =>
    if k' = k then (k, v) :: rest else (k', v') :: dictSet rest k v

theorem lookup_dictSet (l : List (String × PValue)) (k : String) (v : PValue) :
    (dictSet l k v).lookup k = some v := by
  induction l with
  | nil => simp [dictSet, List.lookup]
  | cons hd tl ih =>
    rcases hd with ⟨k', v'⟩
    by_cases h : k' = k
    · subst h
      simp [dictSet, List.lookup]
    · have h2 : (k == k') = false := beq_eq_false_iff_ne.mpr (Ne.symm h)
      simp [dictSet, h, List.lookup, h2, ih]

/-- The parameter dict `OpenAIClient.astream` passes to the transport
(`src/llm/client.py`, lines 124-125): `to_api_params()` of the resolved
config, then `api_params["stream"] = True`. -/
def astream_api_params (c : LLMConfig) : List (String × PValue) :=
  dictSet (c.to_api_params false) "stream" (.bool true)

/-- C8 — for every resolved config, including one whose `stream` field is
false, the parameter dict `astream` builds for the transport maps the key
"stream" to `True`. -/
theorem astream_api_params_stream_true (c : LLMConfig) :
    (astream_api_params c).lookup "stream" = some (.bool true) :=
  lookup_dictSet (c.to_api_params false) "stream" (.bool true)

/-- A wire-level chat message dict with only "role" and "content" keys, as
built by `BaseLLMClient._format_messages`. -/
structure WireMessage where
  role : String
  content : String
deriving DecidableEq, Repr

/-- `BaseLLMClient._format_messages` (`src/llm/base.py`, lines 110-118): the
list comprehension producing one dict per message, in order. -/
def format_messages (msgs : List Message) : List WireMessage :=
  msgs.map fun m => ⟨m.role.value, m.content⟩

/-- C6 — `_format_messages` is length- and order-preserving: position `i` of
the output is exactly the role value and content of position `i` of the input,
and the optional name and metadata never influence the output; in particular
`[system "S", user "U"]` maps to exactly
`[(role system, content S), (role user, content U)]`. -/
theorem format_messages_pointwise (msgs : List Message) :
    (format_messages msgs).length = msgs.length
    ∧ (∀ i : Nat, (format_messages msgs)[i]? =
        (msgs[i]?).map fun m => WireMessage.mk m.role.value m.content)
    ∧ (∀ (r : Role) (ct : String) (nm nm2 : Option String)
         (md md2 : List (String × PValue)),
        format_messages [Message.mk r ct nm md] =
          format_messages [Message.mk r ct nm2 md2])
    ∧ format_messages
        [Message.mk Role.system "S" none [], Message.mk Role.user "U" none []]
        = [WireMessage.mk "system" "S", WireMessage.mk "user" "U"] := by
  refine ⟨?_, ?_, ?_, ?_⟩
  · simp [format_messages]
  · intro i
    simp [format_messages]
  · intro r ct nm nm2 md md2
    simp [format_messages]
  · rfl

/-- `delta` of a streamed chunk choice: the optional text fragment. -/
structure StreamDelta where
  content : Option String
deriving DecidableEq, Repr

/-- One choice of a streamed chunk. -/
structure StreamChoice where
  delta : StreamDelta
deriving DecidableEq, Repr

/-- A chunk yielded by the streaming transport. -/
structure StreamChunk where
  choices : List StreamChoice
deriving DecidableEq, Repr

/-- The consumer loop of `OpenAIClient.astream` (`src/llm/client.py`, lines
133-136): for each chunk take `chunk.choices[0].delta.content` and yield it
when it is truthy (non-None and non-empty).  The result is the list of yielded
fragments together with the exception, if any, that aborted the generator
(`choices[0]` on an empty choice list raises `IndexError`). -/
def astream_yield : List StreamChunk → List String × Option PyExc
  | [] => ([], none)
  | ch :: rest =>
    match ch.choices.head? with
    | none => ([], some .IndexError)
    | some c =>
      let tail := astream_yield rest
      match c.delta.content with
      | none => tail
      | some s => if s.isEmpty then tail else (s :: tail.1, tail.2)

/-- A well-formed transport chunk carrying the given optional fragment. -/
def mkChunk (c : Option String) : StreamChunk := ⟨[⟨⟨c⟩⟩]⟩

/-- C7 — over any transport fragment sequence, `astream` yields exactly the
present, non-empty fragments in order; in particular
`[some "Hello", none, some "", some "world"]` yields exactly
`["Hello", "world"]`. -/
theorem astream_yield_filters_fragments (frags : List (Option String)) :
    astream_yield (frags.map mkChunk) =
      ((frags.filterMap id).filter (fun s => !s.isEmpty), none)
    ∧ astream_yield
        ([some "Hello", none, some "", some "world"].map mkChunk) =
      (["Hello", "world"], none) := by
  refine ⟨?_, rfl⟩
  induction frags with
  | nil => rfl
  | cons hd tl ih =>
    rcases hd with _ | s
    · simpa [astream_yield, mkChunk] using ih
    · by_cases hs : s.isEmpty <;>
        simp [astream_yield, mkChunk, hs, ih, List.filter]

/-- One key/value entry of a loose override mapping handed to
`LLMConfig.from_dict` or `LLMConfig.merge_with`: either a typed assignment to
one of the dataclass fields, or an entry under a key that is not a field
(the value of an unknown key is never read, so it is not carried). -/
inductive Override where
  | temperature (q : Rat)
  | max_tokens (n : Int)
  | top_p (q : Rat)
  | stream (b : Bool)
  | stop (v : Option (List String))
  | seed (v : Option Int)
  | frequency_penalty (v : Option Rat)
  | presence_penalty (v : Option Rat)
  | logit_bias (v : Option (List (String × Rat)))
  | user (v : Option String)
  | response_format (v : Option (List (String × String)))
  | unknown (key : String)
deriving DecidableEq, Repr

/-- Whether an override entry targets one of the dataclass fields
(membership in `valid_keys` in `LLMConfig.from_dict`). -/
def Override.isKnown : Override → Bool
  | .unknown _ => false
  | _ => true

/-- Assign one override entry onto a field record (keyword argument passing in
`cls(**filtered_data)`; an unknown entry assigns nothing). -/
def applyOverride (c : LLMConfig) : Override → LLMConfig
  | .temperature q => ⟨q, c.max_tokens, c.top_p, c.stream, c.stop, c.seed,
      c.frequency_penalty, c.presence_penalty, c.logit_bias, c.user,
      c.response_format⟩
  | .max_tokens n => ⟨c.temperature, n, c.top_p, c.stream, c.stop, c.seed,
      c.frequency_penalty, c.presence_penalty, c.logit_bias, c.user,
      c.response_format⟩
  | .top_p q => ⟨c.temperature, c.max_tokens, q, c.stream, c.stop, c.seed,
      c.frequency_penalty, c.presence_penalty, c.logit_bias, c.user,
      c.response_format⟩
  | .stream b => ⟨c.temperature, c.max_tokens, c.top_p, b, c.stop, c.seed,
      c.frequency_penalty, c.presence_penalty, c.logit_bias, c.user,
      c.response_format⟩
  | .stop v => ⟨c.temperature, c.max_tokens, c.top_p, c.stream, v, c.seed,
      c.frequency_penalty, c.presence_penalty, c.logit_bias, c.user,
      c.response_format⟩
  | .seed v => ⟨c.temperature, c.max_tokens, c.top_p, c.stream, c.stop, v,
      c.frequency_penalty, c.presence_penalty, c.logit_bias, c.user,
      c.response_format⟩
  | .frequency_penalty v => ⟨c.temperature, c.max_tokens, c.top_p, c.stream,
      c.stop, c.seed, v, c.presence_penalty, c.logit_bias, c.user,
      c.response_format⟩
  | .presence_penalty v => ⟨c.temperature, c.max_tokens, c.top_p, c.stream,
      c.stop, c.seed, c.frequency_penalty, v, c.logit_bias, c.user,
      c.response_format⟩
  | .logit_bias v => ⟨c.temperature, c.max_tokens, c.top_p, c.stream, c.stop,
      c.seed, c.frequency_penalty, c.presence_penalty, v, c.user,
      c.response_format⟩
  | .user v => ⟨c.temperature, c.max_tokens, c.top_p, c.stream, c.stop,
      c.seed, c.frequency_penalty, c.presence_penalty, c.logit_bias, v,
      c.response_format⟩
  | .response_format v => ⟨c.temperature, c.max_tokens, c.top_p, c.stream,
      c.stop, c.seed, c.frequency_penalty, c.presence_penalty, c.logit_bias,
      c.user, v⟩
  | .unknown _ => c

/-- `LLMConfig.from_dict` (`src/llm/config.py`, lines 106-127): drop entries
whose key is not a dataclass field (a warning is logged, not an error), then
construct `cls(**filtered_data)` — fields not mentioned keep their dataclass
defaults, and `__post_init__` validation runs.  Later entries for the same key
overwrite earlier ones, as in a dict. -/
def LLMConfig.from_dict (data : List Override) : Except PyExc LLMConfig :=
  LLMConfig.construct
    ((data.filter Override.isKnown).foldl applyOverride defaultLLMConfig)

/-- `asdict(self)` of a config with the underscore keys removed, as the
explicit entry list `merge_with` starts from (every field present). -/
def LLMConfig.fieldEntries (c : LLMConfig) : List Override :=
  [.temperature c.temperature, .max_tokens c.max_tokens, .top_p c.top_p,
   .stream c.stream, .stop c.stop, .seed c.seed,
   .frequency_penalty c.frequency_penalty,
   .presence_penalty c.presence_penalty, .logit_bias c.logit_bias,
   .user c.user, .response_format c.response_format]

/-- `LLMConfig.merge_with` (`src/llm/config.py`, lines 159-176), over an
explicit heap of config instances so that object identity and mutation are
observable: `heap` is the list of live `LLMConfig` objects and `r` the index
of `self`.  A falsy `overrides` (None or the empty dict) returns `self`
unchanged; otherwise `asdict(self)` is updated with the overrides and passed
to `from_dict`, and the freshly constructed instance is appended to the
heap. -/
def merge_with (heap : List LLMConfig) (r : Nat)
    (overrides : Option (List Override)) :
    Except PyExc (List LLMConfig × Nat) :=
  match heap[r]? with
  | none => .error .IndexError
  | some c =>
    match overrides with
    | none => .ok (heap, r)
    | some [] => .ok (heap, r)
    | some os =>
      match LLMConfig.from_dict (c.fieldEntries ++ os) with
      | .error e => .error e
      | .ok c2 => .ok (heap ++ [c2], heap.length)

theorem construct_ok_eq {d c : LLMConfig}
    (h : LLMConfig.construct d = .ok c) : c = d := by
  unfold LLMConfig.construct checkPenalty at h
  rcases hf : d.frequency_penalty with _ | qf <;>
    rcases hp : d.presence_penalty with _ | qp <;>
      simp only [hf, hp] at h <;> split_ifs at h <;> simp_all

theorem to_api_params_keys_valid (c : LLMConfig) (b : Bool) :
    ∀ p ∈ c.to_api_params b, p.1 ∈ configFieldNames := by
  intro p hp
  simp only [LLMConfig.to_api_params, List.mem_filterMap,
    Option.bind_eq_some] at hp
  obtain ⟨e, he, w, _, hif⟩ := hp
  have h1 : p.1 = e.1 := by
    by_cases hcnd : (b && ADVANCED_FIELDS.contains e.1) = true
    · rw [if_pos hcnd] at hif
      simp at hif
    · rw [if_neg hcnd] at hif
      have h2 := Option.some.inj hif
      rw [← h2]
  rw [h1]
  fin_cases he <;> simp [configFieldNames]

/-- C9 — unknown keys in a loose override mapping are dropped by
`from_dict`: resolution behaves exactly as on the mapping with the unknown
keys removed (so they never cause an error), the resulting parameter set
contains only dataclass field keys, and the resulting config passes the
same construction-time range validation. -/
theorem from_dict_drops_unknown_keys (os : List Override) :
    LLMConfig.from_dict os =
      LLMConfig.from_dict (os.filter Override.isKnown)
    ∧ ∀ c, LLMConfig.from_dict os = .ok c →
        ((∀ p ∈ c.to_api_params false, p.1 ∈ configFieldNames)
         ∧ LLMConfig.construct c = .ok c) := by
  constructor
  · simp [LLMConfig.from_dict, List.filter_filter]
  · intro c hc
    refine ⟨to_api_params_keys_valid c false, ?_⟩
    unfold LLMConfig.from_dict at hc
    have he := construct_ok_eq hc
    rw [he]
    rw [he] at hc
    exact hc

/-- Witness for C9 at the mapping containing the unknown key "foo" and a
valid temperature: no error is raised, and the conclusions hold at the
resolved config. -/
theorem from_dict_drops_unknown_keys_witness :
    (LLMConfig.from_dict [Override.unknown "foo", Override.temperature 1]
      = LLMConfig.from_dict
          ([Override.unknown "foo", Override.temperature 1].filter
            Override.isKnown))
    ∧ ((∀ p ∈ (LLMConfig.mk 1 1000 1 false none none none none none none
          none).to_api_params false, p.1 ∈ configFieldNames)
       ∧ LLMConfig.construct
           (LLMConfig.mk 1 1000 1 false none none none none none none none)
         = .ok (LLMConfig.mk 1 1000 1 false none none none none none none
             none)) := by
  have h := from_dict_drops_unknown_keys
    [Override.unknown "foo", Override.temperature 1]
  refine ⟨h.1, h.2 _ ?_⟩
  rfl

/-- The fresh instance produced by the C4 witness merge. -/
def mergedCfg : LLMConfig :=
  ⟨ratSevenTenths, 5, 1, false, none, none, none, none, none, none, none⟩

/-- C4 counterexample — `merge_with` with an empty overrides mapping returns
the base instance itself (heap unchanged, result reference equal to the base
reference 0), not a new instance distinct from the base. -/
theorem merge_with_empty_returns_self_cex :
    merge_with [defaultLLMConfig] 0 (some []) = .ok ([defaultLLMConfig], 0) :=
  rfl

/-- C4 (amended) — `merge_with` never mutates the base (nor any other live
config): every pre-existing heap slot is unchanged.  With a non-empty
overrides mapping the result is a freshly allocated instance distinct from
the base; with `None` or an empty mapping the base itself is returned. -/
theorem merge_with_preserves_base (heap : List LLMConfig) (r : Nat)
    (os : Option (List Override)) (h2 : List LLMConfig) (r2 : Nat)
    (hr : r < heap.length)
    (hm : merge_with heap r os = .ok (h2, r2)) :
    (∀ i, i < heap.length → h2[i]? = heap[i]?)
    ∧ ((os = none ∨ os = some []) → (h2 = heap ∧ r2 = r))
    ∧ (∀ l, os = some l → l ≠ [] → (r2 = heap.length ∧ r2 ≠ r)) := by
  have hg : heap[r]? = some heap[r] := List.getElem?_eq_getElem hr
  unfold merge_with at hm
  rcases os with _ | (_ | ⟨o, os'⟩)
  · simp only [hg, Except.ok.injEq, Prod.mk.injEq] at hm
    exact ⟨fun i _ => by rw [← hm.1], fun _ => ⟨hm.1.symm, hm.2.symm⟩,
      fun l hl => by simp at hl⟩
  · simp only [hg, Except.ok.injEq, Prod.mk.injEq] at hm
    exact ⟨fun i _ => by rw [← hm.1], fun _ => ⟨hm.1.symm, hm.2.symm⟩,
      fun l hl hne => by simp at hl; simp [← hl] at hne⟩
  · simp only [hg] at hm
    rcases hfd : LLMConfig.from_dict (heap[r].fieldEntries ++ o :: os')
      with e | c2
    · rw [hfd] at hm
      simp at hm
    · rw [hfd] at hm
      simp only [Except.ok.injEq, Prod.mk.injEq] at hm
      obtain ⟨hmh, hmr⟩ := hm
      refine ⟨fun i hi => ?_, fun habs => by rcases habs with h | h <;>
        simp at h, fun l hl _ => ?_⟩
      · rw [← hmh, List.getElem?_append_left hi]
      · exact ⟨hmr.symm, by omega⟩

/-- Witness for C4 at a singleton heap and the non-empty override
`max_tokens = 5`: the base slot is untouched and the result is the fresh
reference 1 ≠ 0. -/
theorem merge_with_preserves_base_witness :
    (∀ i, i < ([defaultLLMConfig] : List LLMConfig).length →
       ([defaultLLMConfig, mergedCfg] : List LLMConfig)[i]? =
         ([defaultLLMConfig] : List LLMConfig)[i]?)
    ∧ ((some [Override.max_tokens 5] = (none : Option (List Override))
          ∨ some [Override.max_tokens 5] = some []) →
        (([defaultLLMConfig, mergedCfg] : List LLMConfig) = [defaultLLMConfig]
          ∧ 1 = 0))
    ∧ (∀ l, some [Override.max_tokens 5] = some l → l ≠ [] →
        (1 = ([defaultLLMConfig] : List LLMConfig).length ∧ 1 ≠ 0)) :=
  merge_with_preserves_base [defaultLLMConfig] 0 (some [Override.max_tokens 5])
    [defaultLLMConfig, mergedCfg] 1 (by decide) rfl

/-- Token counts of the provider `usage` object. -/
structure UsageInfo where
  prompt_tokens : Int
  completion_tokens : Int
  total_tokens : Int
deriving DecidableEq, Repr

/-- `message` of a non-streaming provider choice. -/
structure RespMessage where
  content : Option String
deriving DecidableEq, Repr

/-- One `choices` entry of a non-streaming provider response. -/
structure RespChoice where
  message : RespMessage
deriving DecidableEq, Repr

/-- A non-streaming provider response: choices plus optional usage. -/
structure ProviderResponse where
  choices : List RespChoice
  usage : Option UsageInfo
deriving DecidableEq, Repr

/-- The response-normalization section of `OpenAIClient.achat`
(`src/llm/client.py`, lines 84-99), which runs inside the `try` block:
`response.choices[0]` (raising `IndexError` on an empty list, which the
blanket `except` wraps into `RuntimeError`), `content or ""` (the empty
string when the content is `None` or empty), and the three token counts,
each 0 when `usage` is `None`. -/
def parse_response (r : ProviderResponse) : Except PyExc LLMResponse :=
  match r.choices.head? with
  | none => .error (.RuntimeError .IndexError)
  | some ch =>
    let content := match ch.message.content with
      | none => ""
      | some s => if s.isEmpty then "" else s
    let stats : TokenUsage := match r.usage with
      | none => ⟨0, 0, 0⟩
      | some u => ⟨u.prompt_tokens, u.completion_tokens, u.total_tokens⟩
    .ok ⟨content, .assistant, stats⟩

/-- C10 — every successful `achat` normalization yields a string content
(the empty string when the provider content is absent, the provider content
with `or ""` truthiness otherwise) and all-zero token counts when the
provider reports no usage object. -/
theorem achat_normalizes_content_and_usage (ch : RespChoice)
    (rest : List RespChoice) (usage : Option UsageInfo) (resp : LLMResponse)
    (h : parse_response ⟨ch :: rest, usage⟩ = .ok resp) :
    resp.content = ch.message.content.getD ""
    ∧ (ch.message.content = none → resp.content = "")
    ∧ (usage = none → resp.token_usage = ⟨0, 0, 0⟩) := by
  rcases hc : ch.message.content with _ | s <;>
    rcases hu : usage with _ | u <;>
      simp only [parse_response, List.head?, hc, hu, Except.ok.injEq] at h <;>
        rw [← h] <;> refine ⟨?_, ?_, ?_⟩ <;>
          intros <;> simp_all <;>
            rcases hs : s.isEmpty <;>
              simp_all [String.isEmpty_iff]

/-- Witness for C10 at a response with absent content and no usage object. -/
theorem achat_normalizes_content_and_usage_witness :
    (LLMResponse.mk "" Role.assistant ⟨0, 0, 0⟩).content =
      (RespChoice.mk (RespMessage.mk none)).message.content.getD ""
    ∧ ((RespChoice.mk (RespMessage.mk none)).message.content = none →
        (LLMResponse.mk "" Role.assistant ⟨0, 0, 0⟩).content = "")
    ∧ ((none : Option UsageInfo) = none →
        (LLMResponse.mk "" Role.assistant ⟨0, 0, 0⟩).token_usage = ⟨0, 0, 0⟩) :=
  achat_normalizes_content_and_usage (RespChoice.mk (RespMessage.mk none)) []
    none (LLMResponse.mk "" Role.assistant ⟨0, 0, 0⟩) rfl

/-- What one transport invocation does: succeed with a provider response or
raise an exception. -/
inductive TransportOutcome where
  | success (r : ProviderResponse)
  | failure (e : PyExc)

/-- Whether an exception is an (OpenAI) `APIError`, i.e. matches the
`retry_if_exception_type(APIError)` predicate of the `@retry` decorator on
`achat` (`src/llm/client.py`, lines 50-55). -/
def isAPIError : PyExc → Bool
  | .APIError _ => true
  | _ => false

/-- One attempt of the `achat` body (`src/llm/client.py`, lines 75-103): call
the transport, normalize the response; the `try`/`except Exception` block
catches every exception — the transport error included — and re-raises it as
`RuntimeError(...) from e`. -/
def achat_attempt (transport : Nat → TransportOutcome) (n : Nat) :
    Except PyExc LLMResponse :=
  match transport n with
  | .failure e => .error (.RuntimeError e)
  | .success r => parse_response r

/-- The tenacity loop of `@retry(retry=retry_if_exception_type(APIError),
stop=stop_after_attempt(maxAttempts), reraise=True)`: run attempt `n`; on an
exception matching the predicate with the attempt bound not yet reached, try
attempt `n+1`; otherwise re-raise unmodified.  Returns the outcome together
with the number of the attempt that produced it (= number of invocations).
`fuel` only bounds the recursion; any `fuel ≥ maxAttempts` is exact. -/
def retryFrom (body : Nat → Except PyExc LLMResponse) (maxAttempts : Nat) :
    Nat → Nat → Except PyExc LLMResponse × Nat
  | 0, n => (body n, n)
  | fuel + 1, n =>
    match body n with
    | .ok a => (.ok a, n)
    | .error e =>
      if isAPIError e && decide (n < maxAttempts) then
        retryFrom body maxAttempts fuel (n + 1)
      else (.error e, n)

/-- `OpenAIClient.achat` as called on a transport: the retry-decorated
attempt body, attempt bound 3, starting at attempt 1. -/
def achat_model (transport : Nat → TransportOutcome) :
    Except PyExc LLMResponse × Nat :=
  retryFrom (achat_attempt transport) 3 3 1

/-- A transport that raises a transient `APIError` on invocations 1 and 2 and
succeeds on invocation 3. -/
def failTwiceTransport (n : Nat) : TransportOutcome :=
  if n ≤ 2 then .failure (.APIError "rate limited")
  else .success ⟨[⟨⟨some "ok"⟩⟩], some ⟨1, 2, 3⟩⟩

/-- C1 (code evaluation at the failing input) — against a transport that
fails twice with `APIError` then succeeds, `achat` does NOT return the
successful result after 3 invocations: the blanket `except Exception` block
wraps the `APIError` into `RuntimeError` before tenacity evaluates its
`retry_if_exception_type(APIError)` predicate, so `achat` raises after
exactly 1 invocation. -/
theorem achat_no_retry_on_transient_failure :
    achat_model failTwiceTransport =
      (.error (.RuntimeError (.APIError "rate limited")), 1) := rfl

/-- A transport that raises a transient `APIError` on every invocation. -/
def alwaysFailTransport (_ : Nat) : TransportOutcome :=
  .failure (.APIError "server error")

/-- C2 (code evaluation at the failing input) — against a transport that
always fails with `APIError`, `achat` does NOT raise after the configured
bound of 3 invocations with the last error unmodified in kind: it raises
after exactly 1 invocation, and the raised error is a `RuntimeError`
wrapping the `APIError`, not the `APIError` itself. -/
theorem achat_no_exhaustion_bound :
    achat_model alwaysFailTransport =
      (.error (.RuntimeError (.APIError "server error")), 1) := rfl
